import Mathlib

/-!
# Verification of the usaspending-api view handlers

A shallow embedding of the repository's four source files:

* `usaspending_api/disaster/v2/views/federal_account/count.py`
  (`FederalAccountCountViewSet.post`),
* `usaspending_api/recipient/v2/views/recipients.py`
  (`validate_recipient_id`, `extract_name_duns_from_hash`,
  `extract_parents_from_hash`, `cleanup_location`, `extract_location`,
  `obtain_recipient_totals`, `RecipientOverView.get`, `ChildRecipients.get`),
* `usaspending_api/download/tests/integration/test_download_count.py`,
* `usaspending_api/reporting/v2/views/agencies/urls.py` (routing only).

Database tables are embedded as lists of rows; the Elasticsearch client is an
oracle giving, for the one aggregation request a handler issues, the reported
unique-term count and the terms buckets.  Django ORM query chains become list
operations (`filter`/`first`/`count`), `Decimal` arithmetic becomes exact `ℚ`
arithmetic, and `InvalidParameterException` becomes the `Except.error` branch.
-/

namespace USAS

/-- Python `s[:n]` (string slice from the start). -/
def strTake (s : String) (n : Nat) : String := String.mk (s.data.take n)

/-- Python `s[n:]` (string slice to the end). -/
def strDrop (s : String) (n : Nat) : String := String.mk (s.data.drop n)

/-- Python `s[-n:]` (suffix of length `n`; the whole string when shorter). -/
def strTakeRight (s : String) (n : Nat) : String :=
  String.mk (s.data.drop (s.data.length - n))

/-- Python `s[:-n]` (all but the last `n` characters; empty when shorter). -/
def strDropRight (s : String) (n : Nat) : String :=
  String.mk (s.data.take (s.data.length - n))

/-- Index of the last occurrence of `c`, as Python `s.rfind(c)` /
`s.rindex(c)` report it (`none` when absent). -/
def lastIdxOf (cs : List Char) (c : Char) : Option Nat :=
  match cs with
  | [] => none
  | x :: xs =>
    match lastIdxOf xs c with
    | some i => some (i + 1)
    | none => if x = c then some 0 else none

/-- Python truthiness of an optional string: `None` and `""` are falsy. -/
def optTruthy (o : Option String) : Bool :=
  match o with
  | none => false
  | some s => !(s == "")

/-- Python `"{}".format(x)` for an optional value (`None` prints as `"None"`). -/
def pyFmt (o : Option String) : String :=
  match o with
  | none => "None"
  | some s => s

/-- Boolean strict comparison of character lists (lexicographic by code point),
used to embed Python `sorted` on lists of strings. -/
def charsLt : List Char → List Char → Bool
  | [], [] => false
  | [], _ :: _ => true
  | _ :: _, [] => false
  | a :: as, b :: bs =>
    if a.toNat < b.toNat then true
    else if b.toNat < a.toNat then false
    else charsLt as bs

/-- Strict lexicographic order on strings. -/
def strLt (a b : String) : Bool := charsLt a.data b.data

/-- Stable insertion of `x` into `l` (before the first strictly larger
element), the building block of the embedded `sorted`. -/
def insertSorted (x : String) : List String → List String
  | [] => [x]
  | y :: ys => if strLt y x then y :: insertSorted x ys else x :: y :: ys

/-- Python `sorted` on a list of strings (stable, ascending). -/
def pySorted : List String → List String
  | [] => []
  | x :: xs => insertSorted x (pySorted xs)

/-! ## Relational data model

Rows of the database tables the handlers under `src/` read, with exactly the
columns those handlers touch.  A nullable column is an `Option`. -/

/-- A row of the `recipient_profile` table (`RecipientProfile` model). -/
structure RecipientProfileRow where
  recipient_hash : String
  recipient_level : String
  recipient_affiliations : List String
  uei : Option String
  recipient_name : Option String
  recipient_unique_id : Option String
deriving DecidableEq

/-- A row of the `recipient_lookup` table (`RecipientLookup` model). -/
structure RecipientLookupRow where
  recipient_hash : String
  duns : Option String
  legal_business_name : Option String
  alternate_names : List String
  state : Option String
  address_line_1 : Option String
  address_line_2 : Option String
  city : Option String
  zip5 : Option String
  zip4 : Option String
  country_code : Option String
  congressional_district : Option String
deriving DecidableEq

/-- A row of the `ref_country_code` table (`RefCountryCode` model). -/
structure RefCountryCodeRow where
  country_code : String
  country_name : Option String
deriving DecidableEq

/-- The relational state read by the recipient views. -/
structure Db where
  recipientProfiles : List RecipientProfileRow
  recipientLookups : List RecipientLookupRow
  refCountryCodes : List RefCountryCodeRow
deriving DecidableEq

/-- External collaborators of `recipients.py` whose definitions live outside
the four files under `src/`: the `RECIPIENT_LEVELS` constant
(`recipient/v2/lookups.py`), the Python `uuid.UUID` parser, and
`extract_business_categories`' data sources (the `DUNS` model,
`get_duns_business_types_mapping` and `get_business_categories` helpers and
the latest-transaction query), abstracted as an oracle from
(name, duns, hash) to the sorted category list it yields. -/
structure Env where
  recipientLevels : List String
  isUUID : String → Bool
  businessCats : Option String → Option String → String → List String

/-- One bucket of the terms aggregation `obtain_recipient_totals` requests.
`keyHashWithLevel`, `keyUniqueId` and `keyName` are the fields of the
JSON-decoded bucket key (only populated for the `recipient_agg_key` field);
`sumObligation` and `sumFaceValueLoan` are the already-`int()`-truncated
scaled sums, `docCount` and `loansDocCount` the document counts of the bucket
and of its loan sub-filter. -/
structure EsBucket where
  keyHashWithLevel : Option String
  keyUniqueId : Option String
  keyName : Option String
  docCount : Nat
  sumObligation : Int
  loansDocCount : Nat
  sumFaceValueLoan : Int
deriving DecidableEq

/-- The Elasticsearch oracle for one request: per group-by field, the unique
term count reported by `get_number_of_unique_terms_for_transactions` and the
buckets of the executed terms aggregation. -/
structure Es where
  termCount : String → Nat
  buckets : String → List EsBucket

/-! ## `validate_recipient_id` (`recipients.py` lines 32-57) -/

/-- The function `validate_recipient_id` from `recipients.py`: check the id contains `-`,
that the part after the last `-` is a known recipient level, that the part
before it parses as a UUID, and that a `RecipientProfile` row exists for the
(hash, level) pair; return the (hash, level) pair otherwise.  Error payloads
are abbreviations of the Python exception messages. -/
def validate_recipient_id (env : Env) (db : Db) (recipient_id : String) :
    Except String (String × String) :=
  match lastIdxOf recipient_id.data '-' with
  | none => .error ("ID (" ++ recipient_id ++ ") does not include Recipient-Level")
  | some i =>
    let recipient_level := strDrop recipient_id (i + 1)
    if !(env.recipientLevels.contains recipient_level) then
      .error ("Invalid Recipient-Level: " ++ recipient_level)
    else
      let recipient_hash := strTake recipient_id i
      if !(env.isUUID recipient_hash) then
        .error ("Recipient Hash not valid UUID: " ++ recipient_hash)
      else if ((db.recipientProfiles.filter (fun p =>
            p.recipient_hash == recipient_hash
              && p.recipient_level == recipient_level)).length == 0) then
        .error ("Recipient ID not found: " ++ recipient_id)
      else .ok (recipient_hash, recipient_level)

/-- Whether an embedded handler raised (the `Except.error` branch stands for
`InvalidParameterException` and other exceptions). -/
def raised {α : Type} (e : Except String α) : Bool :=
  match e with
  | .error _ => true
  | .ok _ => false

/-- The substring of `s` strictly before its last `-` (all of `s` when there
is none); the claim's phrase for the recipient hash. -/
def beforeLastDash (s : String) : String :=
  match lastIdxOf s.data '-' with
  | none => s
  | some i => strTake s i

/-- The substring of `s` strictly after its last `-` (all of `s` when there
is none); the claim's phrase for the recipient level. -/
def afterLastDash (s : String) : String :=
  match lastIdxOf s.data '-' with
  | none => s
  | some i => strDrop s (i + 1)

/-! ## Row-lookup helpers of `recipients.py` -/

/-- The recurring pattern
`RecipientProfile.objects.filter(recipient_hash=h).values("uei").first()`
followed by `if uei is not None: uei = uei["uei"]` (`recipients.py`
lines 104-106, 346-348, 370-372, 431-433 and 293-299). -/
def profileUei (db : Db) (recipient_hash : String) : Option String :=
  match db.recipientProfiles.find? (fun p => p.recipient_hash == recipient_hash) with
  | none => none
  | some p => p.uei

/-- The function `extract_name_duns_from_hash` (`recipients.py` lines 60-75). -/
def extract_name_duns_from_hash (db : Db) (recipient_hash : String) :
    Option String × Option String :=
  match db.recipientLookups.find? (fun r => r.recipient_hash == recipient_hash) with
  | none => (none, none)
  | some r => (r.duns, r.legal_business_name)

/-- One element of the list `extract_parents_from_hash` returns (also built by
the `recipient_level == "P"` branch of `RecipientOverView.get`). -/
structure ParentDict where
  parent_id : Option String
  parent_duns : Option String
  parent_name : Option String
  parent_uei : Option String
deriving DecidableEq

/-- The function `extract_parents_from_hash` (`recipients.py` lines 78-109).  The first
query keeps only `recipient_level = "C"` profiles; when it finds no row the
Python code subscripts `None` and dies with a `TypeError`, embedded as
`none`.  For each affiliation DUNS that resolves in `RecipientLookup`, the
`uei` written into the entry is looked up under the *argument* hash
(line 104), not under the resolved parent hash. -/
def extract_parents_from_hash (db : Db) (recipient_hash : String) :
    Option (List ParentDict) :=
  match (db.recipientProfiles.filter (fun p =>
      p.recipient_hash == recipient_hash && p.recipient_level == "C")).head? with
  | none => none
  | some row => some (row.recipient_affiliations.map (fun duns =>
      match db.recipientLookups.find? (fun r => r.duns == some duns) with
      | none =>
        { parent_id := none, parent_duns := some duns,
          parent_name := none, parent_uei := none }
      | some parent =>
        { parent_id := some (parent.recipient_hash ++ "-P"),
          parent_duns := some duns,
          parent_name := parent.legal_business_name,
          parent_uei := profileUei db recipient_hash }))

/-! ## `cleanup_location` and `extract_location` (`recipients.py` 112-189) -/

/-- The location dictionary assembled by `extract_location`. -/
structure Location where
  address_line1 : Option String
  address_line2 : Option String
  address_line3 : Option String
  foreign_province : Option String
  city_name : Option String
  county_name : Option String
  state_code : Option String
  zip : Option String
  zip4 : Option String
  foreign_postal_code : Option String
  country_name : Option String
  country_code : Option String
  congressional_code : Option String
deriving DecidableEq

/-- The all-`None` location dictionary `extract_location` starts from. -/
def emptyLocation : Location :=
  { address_line1 := none, address_line2 := none, address_line3 := none,
    foreign_province := none, city_name := none, county_name := none,
    state_code := none, zip := none, zip4 := none,
    foreign_postal_code := none, country_name := none, country_code := none,
    congressional_code := none }

/-- First block of `cleanup_location` (`recipients.py` lines 121-123):
older transactions mix country code and country name. -/
def fixCountryCode (location : Location) : Location :=
  if location.country_code == some "UNITED STATES" then
    { location with country_code := some "USA" }
  else location

/-- Second block of `cleanup_location` (`recipients.py` lines 124-127):
country name generally is not available with SAM data, so fill it from
`RefCountryCode` when the code is truthy and the name is not. -/
def fillCountryName (db : Db) (location : Location) : Location :=
  if optTruthy location.country_code && !(optTruthy location.country_name) then
    let found := db.refCountryCodes.filter
      (fun r => some r.country_code == location.country_code)
    { location with country_name :=
        match found with
        | [] => none
        | r :: _ => r.country_name }
  else location

/-- Third block of `cleanup_location` (`recipients.py` lines 128-137):
older transactions have various formats for the congressional code
(`13.0`, `13`, `CA13`). -/
def fixCongressionalCode (location : Location) : Location :=
  match location.congressional_code with
  | none => location
  | some cc =>
    if cc == "" then location
    else
      let cc1 :=
        match lastIdxOf cc.data '.' with
        | some i => strTake cc i
        | none => cc
      let cc2 := if cc1.data.length == 4 then strDrop cc1 2 else cc1
      { location with congressional_code := some cc2 }

/-- The function `cleanup_location` (`recipients.py` lines 112-138), the sequence of its
three commented blocks. -/
def cleanup_location (db : Db) (location : Location) : Location :=
  fixCongressionalCode (fillCountryName db (fixCountryCode location))

/-- The function `extract_location` (`recipients.py` lines 141-189): start from the
all-`None` dictionary, overlay the annotated `RecipientLookup` columns when a
row matches, and clean the result up (no cleanup when no row matched). -/
def extract_location (db : Db) (recipient_hash : String) : Location :=
  match db.recipientLookups.find? (fun r => r.recipient_hash == recipient_hash) with
  | none => emptyLocation
  | some row =>
    cleanup_location db
      { emptyLocation with
          address_line1 := row.address_line_1
          address_line2 := row.address_line_2
          city_name := row.city
          state_code := row.state
          zip := row.zip5
          zip4 := row.zip4
          country_code := row.country_code
          congressional_code := row.congressional_district }

/-- The congressional-code normalisation exactly as claim C9 words it:
truncate at the last `.` when one is present, then, if exactly 4 characters
remain, keep only the last two. -/
def claimNormalizeCongressional (cc : String) : String :=
  let t :=
    match lastIdxOf cc.data '.' with
    | some i => strTake cc i
    | none => cc
  if t.data.length == 4 then strTakeRight t 2 else t

/-- The congressional-code rewrite of `fixCongressionalCode` as a function on
the optional field value (`None` and the empty string pass through). -/
def pyNormCC (o : Option String) : Option String :=
  match o with
  | none => none
  | some cc =>
    if cc == "" then some cc
    else
      let cc1 :=
        match lastIdxOf cc.data '.' with
        | some i => strTake cc i
        | none => cc
      some (if cc1.data.length == 4 then strDrop cc1 2 else cc1)

/-- Database for the C10 witness: child profile `H` (level `C`, UEI
`CHILDUEI`) affiliated with DUNS `PD`, which resolves to parent hash `HP`
whose own profile carries the different UEI `PARENTUEI`. -/
def dbW10 : Db :=
  { recipientProfiles :=
      [ { recipient_hash := "H", recipient_level := "C",
          recipient_affiliations := ["PD"], uei := some "CHILDUEI",
          recipient_name := some "CHILD", recipient_unique_id := some "CD" },
        { recipient_hash := "HP", recipient_level := "P",
          recipient_affiliations := ["CD"], uei := some "PARENTUEI",
          recipient_name := some "PARENT", recipient_unique_id := some "PD" } ],
    recipientLookups :=
      [ { recipient_hash := "HP", duns := some "PD",
          legal_business_name := some "PARENT", alternate_names := [],
          state := none, address_line_1 := none, address_line_2 := none,
          city := none, zip5 := none, zip4 := none, country_code := none,
          congressional_district := none } ],
    refCountryCodes := [] }

/-- The single entry `extract_parents_from_hash dbW10 "H"` produces. -/
def parentDictW10 : ParentDict :=
  { parent_id := some "HP-P", parent_duns := some "PD",
    parent_name := some "PARENT", parent_uei := some "CHILDUEI" }

/-- Database for the C8 witness: one level-`C` profile under hash `H`. -/
def dbW8 : Db :=
  { recipientProfiles :=
      [ { recipient_hash := "H", recipient_level := "C",
          recipient_affiliations := [], uei := none,
          recipient_name := some "X", recipient_unique_id := none } ],
    recipientLookups := [], refCountryCodes := [] }

/-! ## `obtain_recipient_totals` (`recipients.py` lines 241-318) -/

/-- One dictionary of the list `obtain_recipient_totals` returns.  The four
identity fields exist only in the `children=True` branch and are `none`
otherwise. -/
structure TotalRow where
  recipient_hash : Option String
  recipient_unique_id : Option String
  uei : Option String
  recipient_name : Option String
  total_obligation_amount : ℚ
  total_obligation_count : Nat
  total_face_value_loan_amount : ℚ
  total_face_value_loan_count : Nat
deriving DecidableEq

/-- The group-by field selection of `obtain_recipient_totals`
(`recipients.py` lines 256-261). -/
def chosenGroupByField (recipient_id : String) (children : Bool) : String :=
  if children then "recipient_agg_key"
  else if strTakeRight recipient_id 2 == "-P" then "parent_recipient_hash"
  else "recipient_hash"

/-- The per-bucket dictionary construction of `obtain_recipient_totals`
(`recipients.py` lines 288-316): for `children`, decode the aggregation key
(an empty or missing `hash_with_level` collapses to `None` via `or None`),
strip the two-character level suffix, and look the UEI up in
`RecipientProfile`; always attach the bucket sums divided by `Decimal(100)`
and the document counts. -/
def bucketToTotal (db : Db) (children : Bool) (b : EsBucket) : TotalRow :=
  let ids : Option String × Option String × Option String × Option String :=
    if children then
      let hash_with_level :=
        match b.keyHashWithLevel with
        | some s => if s == "" then none else some s
        | none => none
      let uei :=
        match hash_with_level with
        | some s => profileUei db (strDropRight s 2)
        | none => none
      (hash_with_level.map (fun s => strDropRight s 2), b.keyUniqueId,
        uei, b.keyName)
    else (none, none, none, none)
  { recipient_hash := ids.1, recipient_unique_id := ids.2.1,
    uei := ids.2.2.1, recipient_name := ids.2.2.2,
    total_obligation_amount := (b.sumObligation : ℚ) / 100,
    total_obligation_count := b.docCount,
    total_face_value_loan_amount := (b.sumFaceValueLoan : ℚ) / 100,
    total_face_value_loan_count := b.loansDocCount }

/-- The function `obtain_recipient_totals` (`recipients.py` lines 241-318): build the
filter query (its effect is the oracle's), choose the group-by field, ask the
index for the unique-term count, short-circuit to `[]` when it is zero, and
otherwise turn each bucket of the executed aggregation into a dictionary.
`year` only shapes the query `reshape_filters` builds, which the oracle
absorbs. -/
def obtain_recipient_totals (db : Db) (es : Es) (recipient_id : String)
    (children : Bool) (year : String) : List TotalRow :=
  let group_by_field := chosenGroupByField recipient_id children
  let bucket_count := es.termCount group_by_field
  if bucket_count == 0 then []
  else (es.buckets group_by_field).map (bucketToTotal db children)

/-- Fallback `TotalRow` for positional indexing in statements. -/
def defaultTotal : TotalRow :=
  { recipient_hash := none, recipient_unique_id := none, uei := none,
    recipient_name := none, total_obligation_amount := 0,
    total_obligation_count := 0, total_face_value_loan_amount := 0,
    total_face_value_loan_count := 0 }

/-- Fallback `EsBucket` for positional indexing in statements. -/
def defaultBucket : EsBucket :=
  { keyHashWithLevel := none, keyUniqueId := none, keyName := none,
    docCount := 0, sumObligation := 0, loansDocCount := 0,
    sumFaceValueLoan := 0 }

/-- Oracle for the C4 witness: one bucket under every field, reported count
one. -/
def esW4 : Es :=
  { termCount := fun _ => 1,
    buckets := fun _ =>
      [ { keyHashWithLevel := none, keyUniqueId := none, keyName := none,
          docCount := 7, sumObligation := 12345, loansDocCount := 2,
          sumFaceValueLoan := 6789 } ] }

/-! ## `ChildRecipients.get` (`recipients.py` lines 395-481) -/

/-- The function `extract_hash_name_from_duns` (`recipients.py` lines 395-408); `none`
embeds the `(None, None)` pair whose falsy hash makes the handler raise. -/
def extract_hash_name_from_duns (db : Db) (duns : String) :
    Option (String × Option String) :=
  match db.recipientLookups.find? (fun r => r.duns == some duns) with
  | none => none
  | some r => some (r.recipient_hash, r.legal_business_name)

/-- One element of the list `ChildRecipients.get` returns.
`state_province` is `none` while the key is still absent from the
dictionary; a written value (itself nullable) is `some`. -/
structure ChildResult where
  recipient_id : String
  name : Option String
  duns : Option String
  uei : Option String
  amount : ℚ
  state_province : Option (Option String)
deriving DecidableEq

/-- Python dict lookup where the dict was built by comprehension (later
pairs overwrite earlier ones). -/
def lookupLast (m : List (String × Option String)) (k : String) :
    Option (Option String) :=
  (m.reverse.find? (fun kv => kv.1 == k)).map (fun kv => kv.2)

/-- The per-total child dictionary (`recipients.py` lines 430-442);
`"{}-C".format` of a `None` hash prints `None-C`. -/
def totalToChildResult (db : Db) (t : TotalRow) : ChildResult :=
  { recipient_id := pyFmt t.recipient_hash ++ "-C",
    name := t.recipient_name,
    duns := t.recipient_unique_id,
    uei :=
      match t.recipient_hash with
      | some hh => profileUei db hh
      | none => none,
    amount := t.total_obligation_amount,
    state_province := none }

/-- The zero-amount dictionary appended for a child with no totals in the
period (`recipients.py` lines 459-468). -/
def missingProfileToChildResult (p : RecipientProfileRow) : ChildResult :=
  { recipient_id := p.recipient_hash ++ "-C",
    name := p.recipient_name,
    duns := p.recipient_unique_id,
    uei := p.uei,
    amount := 0,
    state_province := none }

/-- The state/province pass of `ChildRecipients.get` (`recipients.py` lines
470-479): collect the states of all hashes appearing in the results and set
`state_province` on each result whose hash is in the map. -/
def attachStates (db : Db) (results : List ChildResult) : List ChildResult :=
  let child_hashes := results.map (fun r => strDropRight r.recipient_id 2)
  let states_qs := db.recipientLookups.filter
    (fun lk => child_hashes.contains lk.recipient_hash)
  let state_map := states_qs.map (fun lk => (lk.recipient_hash, lk.state))
  results.map (fun r =>
    match lookupLast state_map (strDropRight r.recipient_id 2) with
    | none => r
    | some st => { r with state_province := some st })

/-- The handler `ChildRecipients.get` (`recipients.py` lines 411-481): resolve the DUNS
to the parent hash, turn each Elasticsearch total into a child dictionary,
and — unless the whole period was requested — append a zero-amount entry for
every affiliated child DUNS without totals that has a level-`C` profile,
raising when the resolved hash has no level-`P` profile; finally attach
states.  `year` is the already-validated `year` query parameter
(`validate_year` lives outside `src/`). -/
def childRecipientsGet (db : Db) (es : Es) (year : String) (duns : String) :
    Except String (List ChildResult) :=
  match extract_hash_name_from_duns db duns with
  | none => .error ("DUNS not found: " ++ duns)
  | some (parent_hash, _parent_name) =>
    let totals := obtain_recipient_totals db es (parent_hash ++ "-P") true year
    let results := totals.map (totalToChildResult db)
    let withMissing : Except String (List ChildResult) :=
      if year == "all" then .ok results
      else
        match (db.recipientProfiles.filter (fun p =>
            p.recipient_hash == parent_hash
              && p.recipient_level == "P")).head? with
        | none => .error ("DUNS is not listed as a parent: " ++ duns)
        | some pp =>
          let children := pp.recipient_affiliations
          let found_duns := results.map (fun r => r.duns)
          let missing_duns :=
            children.filter (fun d => !(found_duns.contains (some d)))
          let missing_qs := db.recipientProfiles.filter (fun p =>
            (missing_duns.map some).contains p.recipient_unique_id
              && p.recipient_level == "C")
          .ok (results ++ missing_qs.map missingProfileToChildResult)
    match withMissing with
    | .error e => .error e
    | .ok rs => .ok (attachStates db rs)

/-- Database for the C3 witness: nothing matches the queried DUNS. -/
def dbW3 : Db := ⟨[], [], []⟩

/-- Oracle for the C3 witness. -/
def esW3 : Es := ⟨fun _ => 0, fun _ => []⟩

/-! ## `RecipientOverView.get` (`recipients.py` lines 321-392) -/

/-- The response dictionary of `RecipientOverView.get`. -/
structure OverviewResult where
  name : Option String
  alternate_names : List String
  duns : Option String
  uei : Option String
  recipient_id : String
  recipient_level : String
  parent_id : Option String
  parent_name : Option String
  parent_duns : Option String
  parent_uei : Option String
  parents : List ParentDict
  business_types : List String
  location : Location
  total_transaction_amount : ℚ
  total_transactions : Nat
  total_face_value_loan_amount : ℚ
  total_face_value_loan_transactions : Nat
deriving DecidableEq

/-- The handler `RecipientOverView.get` (`recipients.py` lines 321-392): validate the id,
resolve name and DUNS (raising when both are falsy), sort the alternate
names, build the parents list per level (`C`: `extract_parents_from_hash`,
whose `None` subscript failure propagates; `P`: the recipient itself), and
assemble the response with location, business categories and the head of the
Elasticsearch totals.  `year` is the already-validated `year` query
parameter (`validate_year` lives outside `src/`). -/
def recipientOverViewGet (env : Env) (db : Db) (es : Es) (year : String)
    (recipient_id : String) : Except String OverviewResult :=
  match validate_recipient_id env db recipient_id with
  | .error e => .error e
  | .ok (recipient_hash, recipient_level) =>
    let nd := extract_name_duns_from_hash db recipient_hash
    if !(optTruthy nd.2 || optTruthy nd.1) then
      .error ("Recipient Hash not found: " ++ recipient_hash)
    else
      match db.recipientLookups.find?
          (fun r => r.recipient_hash == recipient_hash) with
      | none => .error "AttributeError: NoneType object has no attribute get"
      | some lkRow =>
        let alternate_names := pySorted lkRow.alternate_names
        let parentsE : Except String (List ParentDict) :=
          if recipient_level == "C" then
            match extract_parents_from_hash db recipient_hash with
            | none => .error "TypeError: NoneType object is not subscriptable"
            | some ps => .ok ps
          else if recipient_level == "P" then
            .ok [{ parent_id := some recipient_id, parent_duns := nd.1,
                   parent_name := nd.2,
                   parent_uei := profileUei db recipient_hash }]
          else .ok []
        match parentsE with
        | .error e => .error e
        | .ok parents =>
          let pFields :=
            match parents.head? with
            | some p0 => (p0.parent_id, p0.parent_name, p0.parent_duns,
                p0.parent_uei)
            | none => (none, none, none, none)
          let tFields : ℚ × Nat × ℚ × Nat :=
            match (obtain_recipient_totals db es recipient_id false
                year).head? with
            | some t => (t.total_obligation_amount, t.total_obligation_count,
                t.total_face_value_loan_amount, t.total_face_value_loan_count)
            | none => (0, 0, 0, 0)
          .ok {
            name := nd.2,
            alternate_names := alternate_names,
            duns := nd.1,
            uei := profileUei db recipient_hash,
            recipient_id := recipient_id,
            recipient_level := recipient_level,
            parent_id := pFields.1,
            parent_name := pFields.2.1,
            parent_duns := pFields.2.2.1,
            parent_uei := pFields.2.2.2,
            parents := parents,
            business_types := env.businessCats nd.2 nd.1 recipient_hash,
            location := extract_location db recipient_hash,
            total_transaction_amount := tFields.1,
            total_transactions := tFields.2.1,
            total_face_value_loan_amount := tFields.2.2.1,
            total_face_value_loan_transactions := tFields.2.2.2 }

/-- Environment for the C7 witness. -/
def envW7 : Env := ⟨["P", "C", "D", "R"], fun _ => true, fun _ _ _ => []⟩

/-- Database for the C7 witness: parent-level profile `H` with UEI `U`,
lookup row carrying DUNS `D` and name `N`. -/
def dbW7 : Db :=
  { recipientProfiles :=
      [ { recipient_hash := "H", recipient_level := "P",
          recipient_affiliations := [], uei := some "U",
          recipient_name := some "N", recipient_unique_id := some "D" } ],
    recipientLookups :=
      [ { recipient_hash := "H", duns := some "D",
          legal_business_name := some "N", alternate_names := [],
          state := none, address_line_1 := none, address_line_2 := none,
          city := none, zip5 := none, zip4 := none, country_code := none,
          congressional_district := none } ],
    refCountryCodes := [] }

/-- The response `recipientOverViewGet envW7 dbW7 ⟨0, []⟩ "latest" "H-P"`
produces. -/
def overviewResW7 : OverviewResult :=
  { name := some "N", alternate_names := [], duns := some "D",
    uei := some "U", recipient_id := "H-P", recipient_level := "P",
    parent_id := some "H-P", parent_name := some "N",
    parent_duns := some "D", parent_uei := some "U",
    parents := [⟨some "H-P", some "D", some "N", some "U"⟩],
    business_types := [], location := emptyLocation,
    total_transaction_amount := 0, total_transactions := 0,
    total_face_value_loan_amount := 0,
    total_face_value_loan_transactions := 0 }

/-! ## `FederalAccountCountViewSet.post` (`disaster/.../count.py`) -/

/-- A row of `FinancialAccountsByProgramActivityObjectClass`, flattened over
the joins `post` traverses: `treasury_account__federal_account_id`,
`disaster_emergency_fund__code` and the `submission__*` columns. -/
structure FabpaocRow where
  federal_account_id : Option Nat
  defc : Option String
  reporting_period_start : Int
  quarter_format_flag : Bool
  reporting_fiscal_year : Nat
  reporting_fiscal_quarter : Nat
  reporting_fiscal_period : Nat
  obligations_incurred_by_program_object_class_cpe : Option Int
  gross_outlay_amount_by_program_object_class_cpe : Option Int
deriving DecidableEq

/-- The relational state read by `FederalAccountCountViewSet.post`:
`FederalAccount` primary keys and the financial-activity rows. -/
structure DisasterDb where
  federalAccounts : List Nat
  fabpaocRows : List FabpaocRow
deriving DecidableEq

/-- The `DisasterBase` request context (`disaster_base.py` is outside
`src/`): the validated `def_codes` filter, `reporting_period_min` and the
last closed quarterly/monthly submission dates. -/
structure DisasterCtx where
  defCodes : List String
  reportingPeriodMin : Int
  lastQuarterlyYear : Nat
  lastQuarterlyQuarter : Nat
  lastMonthlyYear : Nat
  lastMonthlyMonth : Nat
deriving DecidableEq

/-- SQL `column > x` on a nullable column (`NULL` compares false). -/
def optGt (o : Option Int) (x : Int) : Bool :=
  match o with
  | none => false
  | some v => decide (x < v)

/-- SQL `column < x` on a nullable column (`NULL` compares false). -/
def optLt (o : Option Int) (x : Int) : Bool :=
  match o with
  | none => false
  | some v => decide (v < x)

/-- The conjunction of the five `filters` of
`FederalAccountCountViewSet.post` (`count.py` lines 20-50), applied to one
financial-activity row for the outer-ref account `pk`. -/
def fabpaocMatches (ctx : DisasterCtx) (pk : Nat) (r : FabpaocRow) : Bool :=
  (r.federal_account_id == some pk)
  && (match r.defc with
      | some c => ctx.defCodes.contains c
      | none => false)
  && decide (ctx.reportingPeriodMin ≤ r.reporting_period_start)
  && ((r.quarter_format_flag
        && decide (r.reporting_fiscal_year ≤ ctx.lastQuarterlyYear)
        && decide (r.reporting_fiscal_quarter ≤ ctx.lastQuarterlyQuarter))
      || (!r.quarter_format_flag
        && decide (r.reporting_fiscal_year ≤ ctx.lastMonthlyYear)
        && decide (r.reporting_fiscal_period ≤ ctx.lastMonthlyMonth)))
  && (optGt r.obligations_incurred_by_program_object_class_cpe 0
      || optLt r.obligations_incurred_by_program_object_class_cpe 0
      || optGt r.gross_outlay_amount_by_program_object_class_cpe 0
      || optLt r.gross_outlay_amount_by_program_object_class_cpe 0)

/-- The response body of `FederalAccountCountViewSet.post`. -/
structure CountResponse where
  count : Nat
deriving DecidableEq

/-- The handler `FederalAccountCountViewSet.post` (`count.py` lines 19-59): annotate
every `FederalAccount` with an `Exists` sub-query over the filtered
financial-activity rows, keep the accounts where it holds, and count their
primary keys. -/
def federalAccountCountPost (ctx : DisasterCtx) (ddb : DisasterDb) :
    CountResponse :=
  { count :=
      (((ddb.federalAccounts.map (fun pk =>
          (pk, ddb.fabpaocRows.any (fabpaocMatches ctx pk)))).filter
        (fun x => x.2)).map (fun x => x.1)).length }

/-- The counted property as claim C1 words it: some financial-activity row
of the federal account carries a requested DEF code, starts at or after the
reporting-period minimum, lies within the last closed quarterly window when
quarter-format (monthly otherwise, both coordinates at most the window's),
and has a strictly nonzero obligation or gross outlay. -/
def countedFederalAccount (ctx : DisasterCtx) (ddb : DisasterDb)
    (pk : Nat) : Prop :=
  ∃ r ∈ ddb.fabpaocRows,
    r.federal_account_id = some pk
    ∧ (∃ c ∈ ctx.defCodes, r.defc = some c)
    ∧ ctx.reportingPeriodMin ≤ r.reporting_period_start
    ∧ (if r.quarter_format_flag then
        r.reporting_fiscal_year ≤ ctx.lastQuarterlyYear
          ∧ r.reporting_fiscal_quarter ≤ ctx.lastQuarterlyQuarter
      else
        r.reporting_fiscal_year ≤ ctx.lastMonthlyYear
          ∧ r.reporting_fiscal_period ≤ ctx.lastMonthlyMonth)
    ∧ ((∃ v, r.obligations_incurred_by_program_object_class_cpe = some v
          ∧ v ≠ 0)
      ∨ (∃ v, r.gross_outlay_amount_by_program_object_class_cpe = some v
          ∧ v ≠ 0))

instance countedFederalAccountDecidable (ctx : DisasterCtx)
    (ddb : DisasterDb) (pk : Nat) :
    Decidable (countedFederalAccount ctx ddb pk) := by
  unfold countedFederalAccount
  infer_instance

/-! ## POST /api/v2/download/count (C6)

The handler itself is not under `src/`; only its integration test
(`test_download_count.py`) and the spec sentence about seeded-record counts
are.  The endpoint is therefore modelled from the spec. -/

/-- Modelled from the spec: the transaction attributes the download-count
endpoint filters on (the handler under
`usaspending_api/download/v2` is not in `src/`); the seeded fixture only
distinguishes transactions by awarding toptier agency name. -/
structure DlTransaction where
  awardingToptierName : String
deriving DecidableEq

/-- Modelled from the spec: one entry of the request's `agencies` filter. -/
structure AgencyFilter where
  type : String
  tier : String
  name : String
deriving DecidableEq

/-- Modelled from the spec: the JSON body (plus HTTP status) the
download-count endpoint returns. -/
structure DownloadCountResponse where
  status : Nat
  calculated_transaction_count : Nat
  maximum_transaction_limit : Nat
  transaction_rows_gt_limit : Bool
deriving DecidableEq

/-- Modelled from the spec: an awarding/toptier agency filter keeps the
transactions whose awarding toptier agency bears the given name. -/
def transactionMatchesAgencyFilter (f : AgencyFilter) (t : DlTransaction) :
    Bool :=
  if f.type == "awarding" && f.tier == "toptier" then
    t.awardingToptierName == f.name
  else true

/-- Modelled from the spec: POST /api/v2/download/count counts the
transactions matching all agency filters, reports the configured
`MAX_DOWNLOAD_LIMIT`, and whether the count exceeds it, with HTTP 200. -/
def downloadCountPost (maxDownloadLimit : Nat) (txs : List DlTransaction)
    (agencies : List AgencyFilter) : DownloadCountResponse :=
  let c := (txs.filter (fun t =>
    agencies.all (fun f => transactionMatchesAgencyFilter f t))).length
  { status := 200, calculated_transaction_count := c,
    maximum_transaction_limit := maxDownloadLimit,
    transaction_rows_gt_limit := decide (maxDownloadLimit < c) }

/-- The seeded records of the `download_test_data` fixture
(`test_download_count.py` lines 20-106): three transactions on three awards,
exactly one awarded by `Bureau of Things`. -/
def downloadTestData : List DlTransaction :=
  [⟨"Bureau of Things"⟩, ⟨"Bureau of Stuff"⟩, ⟨"Bureau of Stuff"⟩]

/-! ## Theorems

The claim theorems (C1-C10), their helper lemmas and their concrete-input
witnesses. -/

theorem lastIdxOf_isSome_iff (cs : List Char) (c : Char) :
    (lastIdxOf cs c).isSome = true ↔ c ∈ cs := by
  induction cs with
  | nil => simp [lastIdxOf]
  | cons x xs ih =>
    simp only [lastIdxOf, List.mem_cons]
    cases h : lastIdxOf xs c with
    | some i => simp [h] at ih ⊢; exact Or.inr ih
    | none =>
      simp [h] at ih ⊢
      constructor
      · intro hx
        by_cases hxc : x = c
        · exact Or.inl hxc.symm
        · simp [hxc] at hx
      · rintro (rfl | hmem)
        · simp
        · exact absurd hmem ih

/-- C2: `validate_recipient_id` raises exactly when the id has no `-`, or the
part after the last `-` is not a known recipient level, or the part before it
is not a valid UUID, or no `RecipientProfile` row matches that hash and
level; in every other case it returns (before, after) without raising. -/
theorem validate_recipient_id_raises_iff (env : Env) (db : Db) (rid : String) :
    (raised (validate_recipient_id env db rid) = true ↔
      ('-' ∉ rid.data
        ∨ afterLastDash rid ∉ env.recipientLevels
        ∨ env.isUUID (beforeLastDash rid) = false
        ∨ ¬ ∃ p ∈ db.recipientProfiles,
            p.recipient_hash = beforeLastDash rid
              ∧ p.recipient_level = afterLastDash rid))
    ∧ (∀ pr, validate_recipient_id env db rid = .ok pr →
        pr = (beforeLastDash rid, afterLastDash rid)) := by
  unfold validate_recipient_id beforeLastDash afterLastDash
  cases h : lastIdxOf rid.data '-' with
  | none =>
    have hmem : '-' ∉ rid.data := by
      intro hm
      have := (lastIdxOf_isSome_iff rid.data '-').mpr hm
      simp [h] at this
    constructor
    · simp [raised, hmem]
    · intro pr hpr
      simp at hpr
  | some i =>
    have hmem : '-' ∈ rid.data := by
      have : (lastIdxOf rid.data '-').isSome = true := by simp [h]
      exact (lastIdxOf_isSome_iff rid.data '-').mp this
    by_cases hlev : strDrop rid (i + 1) ∈ env.recipientLevels
    · have hconts : env.recipientLevels.contains (strDrop rid (i + 1)) = true :=
        List.elem_iff.mpr hlev
      by_cases huuid : env.isUUID (strTake rid i) = true
      · by_cases hfilt : ((db.recipientProfiles.filter (fun p =>
            p.recipient_hash == strTake rid i
              && p.recipient_level == strDrop rid (i + 1))).length == 0) = true
        · -- profile lookup empty: raises "Recipient ID not found"
          have hne : ¬ ∃ p ∈ db.recipientProfiles,
              p.recipient_hash = strTake rid i
                ∧ p.recipient_level = strDrop rid (i + 1) := by
            simp only [beq_iff_eq, List.length_eq_zero, List.filter_eq_nil_iff] at hfilt
            rintro ⟨p, hp, h1, h2⟩
            have := hfilt p hp
            simp [h1, h2] at this
          constructor
          · simp [raised, hconts, huuid, hfilt, hmem, hne, hlev]
          · intro pr hpr
            simp [hconts, huuid, hfilt, hlev] at hpr
        · -- all checks pass: returns the pair
          have hex : ∃ p ∈ db.recipientProfiles,
              p.recipient_hash = strTake rid i
                ∧ p.recipient_level = strDrop rid (i + 1) := by
            simp only [beq_iff_eq, List.length_eq_zero, List.filter_eq_nil_iff] at hfilt
            push_neg at hfilt
            obtain ⟨p, hp, hcond⟩ := hfilt
            refine ⟨p, hp, ?_⟩
            simpa using hcond
          constructor
          · simp [raised, hconts, huuid, hfilt, hmem, hex, hlev]
          · intro pr hpr
            simp [hconts, huuid, hfilt, hlev] at hpr
            exact hpr.symm
      · have huuid' : env.isUUID (strTake rid i) = false := by
          simpa using huuid
        constructor
        · simp [raised, hconts, huuid', hlev]
        · intro pr hpr
          simp [hconts, huuid', hlev] at hpr
    · have hconts : env.recipientLevels.contains (strDrop rid (i + 1)) = false := by
        rcases h2 : env.recipientLevels.contains (strDrop rid (i + 1)) with _ | _
        · rfl
        · exact absurd (List.elem_iff.mp h2) hlev
      constructor
      · simp [raised, hconts, hlev]
      · intro pr hpr
        simp [hconts, hlev] at hpr

/-- Witness for C2 at a concrete input: an id with no dash raises. -/
theorem validate_recipient_id_raises_iff_witness :
    raised (validate_recipient_id
      ⟨["P", "C", "D", "R"], fun _ => true, fun _ _ _ => []⟩
      ⟨[], [], []⟩ "nodash") = true :=
  (validate_recipient_id_raises_iff
      ⟨["P", "C", "D", "R"], fun _ => true, fun _ _ _ => []⟩
      ⟨[], [], []⟩ "nodash").1.mpr (Or.inl (by decide))

theorem fixCountryCode_eq (l : Location) :
    fixCountryCode l =
      { l with country_code :=
          if l.country_code = some "UNITED STATES" then some "USA"
          else l.country_code } := by
  unfold fixCountryCode
  by_cases h : l.country_code = some "UNITED STATES" <;> simp [h]

theorem fillCountryName_eq (db : Db) (l : Location) :
    ∃ cn, fillCountryName db l = { l with country_name := cn } := by
  unfold fillCountryName
  by_cases h : (optTruthy l.country_code && !(optTruthy l.country_name)) = true
  · simp only [h, if_true]
    exact ⟨_, rfl⟩
  · simp only [h, if_false]
    exact ⟨l.country_name, rfl⟩

theorem fixCongressionalCode_eq (l : Location) :
    fixCongressionalCode l =
      { l with congressional_code := pyNormCC l.congressional_code } := by
  unfold fixCongressionalCode pyNormCC
  cases hcg : l.congressional_code with
  | none => cases l; simp_all
  | some cc =>
    by_cases hempty : cc == ""
    · simp only [hempty, if_true]
      cases l
      simp_all [beq_iff_eq]
    · simp only [hempty, if_false]
      rfl

/-- C9: `cleanup_location` rewrites a `UNITED STATES` country code to `USA`,
normalises every non-empty congressional code by truncating at the last `.`
and then keeping the last two of exactly four characters, and these two rules
modify no other key. -/
theorem cleanup_location_rules (db : Db) (l : Location) :
    (cleanup_location db l).country_code =
      (if l.country_code = some "UNITED STATES" then some "USA"
        else l.country_code)
    ∧ (cleanup_location db l).congressional_code =
      (match l.congressional_code with
        | none => none
        | some cc =>
          if cc = "" then some cc else some (claimNormalizeCongressional cc))
    ∧ (cleanup_location db l).address_line1 = l.address_line1
    ∧ (cleanup_location db l).address_line2 = l.address_line2
    ∧ (cleanup_location db l).address_line3 = l.address_line3
    ∧ (cleanup_location db l).foreign_province = l.foreign_province
    ∧ (cleanup_location db l).city_name = l.city_name
    ∧ (cleanup_location db l).county_name = l.county_name
    ∧ (cleanup_location db l).state_code = l.state_code
    ∧ (cleanup_location db l).zip = l.zip
    ∧ (cleanup_location db l).zip4 = l.zip4
    ∧ (cleanup_location db l).foreign_postal_code = l.foreign_postal_code := by
  have hnorm : ∀ cc : String, ¬ cc = "" →
      pyNormCC (some cc) =
        (if cc = "" then some cc else some (claimNormalizeCongressional cc)) := by
    intro cc hcc
    have hbeq : (cc == "") = false := by simp [hcc]
    unfold pyNormCC claimNormalizeCongressional
    simp only [hbeq, if_false, hcc, if_neg hcc]
    cases hidx : lastIdxOf cc.data '.' with
    | none =>
      by_cases hlen : cc.length = 4
      · have hlen' : cc.data.length = 4 := hlen
        have : strDrop cc 2 = strTakeRight cc 2 := by
          simp [strDrop, strTakeRight, hlen']
        simp [hlen, this]
      · simp [hlen]
    | some i =>
      by_cases hlen : (strTake cc i).length = 4
      · have hlen' : (strTake cc i).data.length = 4 := hlen
        have : strDrop (strTake cc i) 2 = strTakeRight (strTake cc i) 2 := by
          simp [strDrop, strTakeRight, hlen']
        simp [hlen, this]
      · simp [hlen]
  obtain ⟨cn, hcn⟩ := fillCountryName_eq db (fixCountryCode l)
  have hcl : cleanup_location db l =
      { l with
          country_code :=
            if l.country_code = some "UNITED STATES" then some "USA"
            else l.country_code,
          country_name := cn,
          congressional_code := pyNormCC l.congressional_code } := by
    unfold cleanup_location
    rw [fixCountryCode_eq] at hcn
    rw [fixCountryCode_eq, hcn, fixCongressionalCode_eq]
  rw [hcl]
  refine ⟨rfl, ?_, rfl, rfl, rfl, rfl, rfl, rfl, rfl, rfl, rfl, rfl⟩
  cases hcg : l.congressional_code with
  | none => rfl
  | some cc =>
    by_cases hcc : cc = ""
    · subst hcc
      simp [pyNormCC]
    · simp only [hnorm cc hcc, if_neg hcc]

/-- C10: every entry of `extract_parents_from_hash` whose DUNS resolves in
`RecipientLookup` carries `parent_uei` looked up under the child hash passed
as the argument. -/
theorem extract_parents_uei_is_child_uei (db : Db) (h : String)
    (l : List ParentDict) (hx : extract_parents_from_hash db h = some l) :
    ∀ p ∈ l, ∀ d, p.parent_duns = some d →
      (db.recipientLookups.find? (fun r => r.duns == some d)).isSome = true →
      p.parent_uei = profileUei db h := by
  unfold extract_parents_from_hash at hx
  cases hrow : (db.recipientProfiles.filter (fun p =>
      p.recipient_hash == h && p.recipient_level == "C")).head? with
  | none => simp [hrow] at hx
  | some row =>
    simp only [hrow] at hx
    injection hx with hx
    subst hx
    intro p hp d hduns hres
    obtain ⟨duns, _hmem, hfd⟩ := List.mem_map.mp hp
    cases hfind : db.recipientLookups.find? (fun r => r.duns == some duns) with
    | none =>
      rw [hfind] at hfd
      subst hfd
      simp at hduns
      subst hduns
      rw [hfind] at hres
      simp at hres
    | some parent =>
      rw [hfind] at hfd
      subst hfd
      rfl

/-- Witness for C10: in `dbW10` the resolved entry's `parent_uei` is the
child's `CHILDUEI`, not the parent profile's `PARENTUEI`. -/
theorem extract_parents_uei_is_child_uei_witness :
    parentDictW10.parent_uei = profileUei dbW10 "H"
      ∧ profileUei dbW10 "H" = some "CHILDUEI"
      ∧ profileUei dbW10 "HP" = some "PARENTUEI" :=
  ⟨extract_parents_uei_is_child_uei dbW10 "H" [parentDictW10] (by decide)
      parentDictW10 (by decide) "PD" (by decide) (by decide),
    by decide, by decide⟩

/-- C8: after `validate_recipient_id` accepts an id at level `C`,
`extract_parents_from_hash` finds its first query's row, so the unguarded
subscript cannot hit `None`; without a level-`C` profile the call fails. -/
theorem extract_parents_precondition (env : Env) (db : Db) (rid h : String) :
    (validate_recipient_id env db rid = .ok (h, "C") →
      (extract_parents_from_hash db h).isSome = true)
    ∧ ((¬ ∃ p ∈ db.recipientProfiles,
          p.recipient_hash = h ∧ p.recipient_level = "C") →
        extract_parents_from_hash db h = none) := by
  constructor
  · intro hv
    unfold validate_recipient_id at hv
    cases hidx : lastIdxOf rid.data '-' with
    | none => simp [hidx] at hv
    | some i =>
      simp only [hidx] at hv
      by_cases hconts :
          env.recipientLevels.contains (strDrop rid (i + 1)) = true
      · have hmemL : strDrop rid (i + 1) ∈ env.recipientLevels :=
          List.elem_iff.mp hconts
        by_cases huuid : env.isUUID (strTake rid i) = true
        · by_cases hfilt : ((db.recipientProfiles.filter (fun p =>
              p.recipient_hash == strTake rid i
                && p.recipient_level == strDrop rid (i + 1))).length == 0) = true
          · simp [hconts, huuid, hfilt, hmemL] at hv
          · simp only [hconts, huuid, hfilt, Bool.not_true, Bool.false_eq_true,
              if_false, if_true] at hv
            injection hv with hv
            have hh : strTake rid i = h := congrArg Prod.fst hv
            have hlv : strDrop rid (i + 1) = "C" := congrArg Prod.snd hv
            rw [hh, hlv] at hfilt
            unfold extract_parents_from_hash
            cases hhead : (db.recipientProfiles.filter (fun p =>
                p.recipient_hash == h && p.recipient_level == "C")).head? with
            | none =>
              rw [List.head?_eq_none_iff] at hhead
              rw [hhead] at hfilt
              simp at hfilt
            | some row => simp [hhead]
        · simp [hconts, huuid, hmemL] at hv
      · have hnm : strDrop rid (i + 1) ∉ env.recipientLevels := fun hm =>
          hconts (List.elem_iff.mpr hm)
        simp [hnm] at hv
  · intro hne
    unfold extract_parents_from_hash
    have hnil : db.recipientProfiles.filter (fun p =>
        p.recipient_hash == h && p.recipient_level == "C") = [] := by
      rw [List.filter_eq_nil_iff]
      intro p hp
      intro hcond
      simp only [Bool.and_eq_true, beq_iff_eq] at hcond
      exact hne ⟨p, hp, hcond.1, hcond.2⟩
    rw [hnil]
    rfl

/-- Witness for C8: a validated `H-C` id guarantees a row for the first
query, while a hash with no level-`C` profile makes the call fail. -/
theorem extract_parents_precondition_witness :
    (extract_parents_from_hash dbW8 "H").isSome = true
      ∧ extract_parents_from_hash dbW8 "Z" = none :=
  ⟨(extract_parents_precondition
      ⟨["P", "C"], fun _ => true, fun _ _ _ => []⟩ dbW8 "H-C" "H").1 rfl,
    (extract_parents_precondition
      ⟨["P", "C"], fun _ => true, fun _ _ _ => []⟩ dbW8 "Z-C" "Z").2 (by decide)⟩

/-- C4: assuming the index is consistent (the terms aggregation returns as
many buckets as the reported unique-term count), `obtain_recipient_totals`
returns `[]` exactly when that count is zero, and otherwise one dictionary
per bucket whose amounts are the bucket's integer sums divided exactly by
100 and whose counts are the bucket's document counts. -/
theorem obtain_recipient_totals_buckets (db : Db) (es : Es)
    (recipient_id year : String) (children : Bool)
    (hES : (es.buckets (chosenGroupByField recipient_id children)).length =
      es.termCount (chosenGroupByField recipient_id children)) :
    (obtain_recipient_totals db es recipient_id children year = [] ↔
      es.termCount (chosenGroupByField recipient_id children) = 0)
    ∧ (obtain_recipient_totals db es recipient_id children year).length =
      (es.buckets (chosenGroupByField recipient_id children)).length
    ∧ ∀ i, i < (es.buckets (chosenGroupByField recipient_id children)).length →
      ((obtain_recipient_totals db es recipient_id children year).getD i
          defaultTotal).total_obligation_amount =
        (((es.buckets (chosenGroupByField recipient_id children)).getD i
          defaultBucket).sumObligation : ℚ) / 100
      ∧ ((obtain_recipient_totals db es recipient_id children year).getD i
          defaultTotal).total_obligation_count =
        ((es.buckets (chosenGroupByField recipient_id children)).getD i
          defaultBucket).docCount
      ∧ ((obtain_recipient_totals db es recipient_id children year).getD i
          defaultTotal).total_face_value_loan_amount =
        (((es.buckets (chosenGroupByField recipient_id children)).getD i
          defaultBucket).sumFaceValueLoan : ℚ) / 100
      ∧ ((obtain_recipient_totals db es recipient_id children year).getD i
          defaultTotal).total_face_value_loan_count =
        ((es.buckets (chosenGroupByField recipient_id children)).getD i
          defaultBucket).loansDocCount := by
  set gbf := chosenGroupByField recipient_id children with hgbf
  by_cases hzero : es.termCount gbf = 0
  · have hnil : es.buckets gbf = [] := by
      rw [hzero] at hES
      exact List.length_eq_zero.mp hES
    have hobt : obtain_recipient_totals db es recipient_id children year = [] := by
      unfold obtain_recipient_totals
      simp [← hgbf, hzero]
    refine ⟨by simp [hobt, hzero], by simp [hobt, hnil], ?_⟩
    intro i hi
    rw [hnil] at hi
    simp at hi
  · have hobt : obtain_recipient_totals db es recipient_id children year =
        (es.buckets gbf).map (bucketToTotal db children) := by
      unfold obtain_recipient_totals
      simp [← hgbf, hzero]
    have hlen : (obtain_recipient_totals db es recipient_id children year).length =
        (es.buckets gbf).length := by
      rw [hobt, List.length_map]
    refine ⟨?_, hlen, ?_⟩
    · constructor
      · intro hemp
        rw [hemp] at hlen
        rw [← hES]
        simpa using hlen.symm
      · intro hz
        exact absurd hz hzero
    · intro i hi
      have hget : (obtain_recipient_totals db es recipient_id children year).getD i
          defaultTotal =
          bucketToTotal db children ((es.buckets gbf).getD i defaultBucket) := by
        rw [hobt]
        rcases List.getElem?_eq_some_iff.mpr
            ⟨hi, rfl⟩ with _
        have h1 : ((es.buckets gbf).map (bucketToTotal db children)).getD i
            defaultTotal =
            (((es.buckets gbf).map (bucketToTotal db children))[i]?).getD
              defaultTotal := by
          rw [List.getD_eq_getElem?_getD]
        rw [h1, List.getElem?_map]
        cases hb : (es.buckets gbf)[i]? with
        | none =>
          rw [List.getElem?_eq_none_iff] at hb
          omega
        | some b =>
          have : (es.buckets gbf).getD i defaultBucket = b := by
            rw [List.getD_eq_getElem?_getD, hb]
            rfl
          rw [this]
          rfl
      rw [hget]
      exact ⟨rfl, rfl, rfl, rfl⟩

/-- Witness for C4 at a concrete consistent oracle. -/
theorem obtain_recipient_totals_buckets_witness :
    (esW4.buckets (chosenGroupByField "x" false)).length =
      esW4.termCount (chosenGroupByField "x" false)
    ∧ (obtain_recipient_totals ⟨[], [], []⟩ esW4 "x" false "latest" = [] ↔
        esW4.termCount (chosenGroupByField "x" false) = 0) :=
  ⟨rfl, (obtain_recipient_totals_buckets ⟨[], [], []⟩ esW4 "x" "latest" false rfl).1⟩

theorem attachStates_preserves (db : Db) (rs : List ChildResult)
    (e0 : ChildResult) (h : e0 ∈ rs) :
    ∃ e ∈ attachStates db rs, e.duns = e0.duns ∧ e.amount = e0.amount := by
  simp only [attachStates]
  refine ⟨_, List.mem_map_of_mem _ h, ?_⟩
  show (match lookupLast _ (strDropRight e0.recipient_id 2) with
    | none => e0
    | some st => { e0 with state_province := some st }).duns = e0.duns
    ∧ (match lookupLast _ (strDropRight e0.recipient_id 2) with
    | none => e0
    | some st => { e0 with state_province := some st }).amount = e0.amount
  split <;> exact ⟨rfl, rfl⟩

/-- C3: `ChildRecipients.get` raises `DUNS not found` when no lookup row has
the DUNS; for a non-`all` year it raises `DUNS is not listed as a parent`
when the resolved hash has no level-`P` profile, and every affiliated child
DUNS without Elasticsearch totals that has a level-`C` profile appears in
the response with amount 0. -/
theorem child_recipients_spec (db : Db) (es : Es) (year duns : String) :
    ((¬ ∃ r ∈ db.recipientLookups, r.duns = some duns) →
      childRecipientsGet db es year duns = .error ("DUNS not found: " ++ duns))
    ∧ (∀ r, db.recipientLookups.find? (fun x => x.duns == some duns) = some r →
        ¬ year = "all" →
        (¬ ∃ p ∈ db.recipientProfiles,
            p.recipient_hash = r.recipient_hash ∧ p.recipient_level = "P") →
        childRecipientsGet db es year duns =
          .error ("DUNS is not listed as a parent: " ++ duns))
    ∧ (∀ res, childRecipientsGet db es year duns = .ok res →
        ¬ year = "all" →
        ∀ r, db.recipientLookups.find? (fun x => x.duns == some duns) = some r →
        ∀ pp, (db.recipientProfiles.filter (fun p =>
            p.recipient_hash == r.recipient_hash
              && p.recipient_level == "P")).head? = some pp →
        ∀ d ∈ pp.recipient_affiliations,
          some d ∉ (obtain_recipient_totals db es (r.recipient_hash ++ "-P")
              true year).map (fun t => t.recipient_unique_id) →
          (∃ cp ∈ db.recipientProfiles,
            cp.recipient_unique_id = some d ∧ cp.recipient_level = "C") →
          ∃ e ∈ res, e.duns = some d ∧ e.amount = 0) := by
  refine ⟨?_, ?_, ?_⟩
  · intro hne
    have hfind : db.recipientLookups.find? (fun r => r.duns == some duns) = none := by
      rw [List.find?_eq_none]
      intro r hr
      simp only [beq_iff_eq]
      exact fun hd => hne ⟨r, hr, hd⟩
    unfold childRecipientsGet extract_hash_name_from_duns
    rw [hfind]
  · intro r hfind hyear hnoP
    have hnilP : db.recipientProfiles.filter (fun p =>
        p.recipient_hash == r.recipient_hash && p.recipient_level == "P") = [] := by
      rw [List.filter_eq_nil_iff]
      intro p hp hcond
      simp only [Bool.and_eq_true, beq_iff_eq] at hcond
      exact hnoP ⟨p, hp, hcond.1, hcond.2⟩
    have hyb : (year == "all") = false := by simpa using hyear
    unfold childRecipientsGet extract_hash_name_from_duns
    rw [hfind]
    simp [hyb, hnilP]
  · intro res hok hyear r hfind pp hpp d hd hnotot hcp
    obtain ⟨cp, hcpmem, hcpid, hcplev⟩ := hcp
    have hyb : (year == "all") = false := by simpa using hyear
    unfold childRecipientsGet extract_hash_name_from_duns at hok
    rw [hfind] at hok
    simp only [hyb, if_false, hpp] at hok
    -- the totals-derived duns list is the unique-id list of the totals
    have hfound : ((obtain_recipient_totals db es (r.recipient_hash ++ "-P")
          true year).map (totalToChildResult db)).map (fun x => x.duns) =
        (obtain_recipient_totals db es (r.recipient_hash ++ "-P")
          true year).map (fun t => t.recipient_unique_id) := by
      rw [List.map_map]
      rfl
    have hdm : d ∈ pp.recipient_affiliations.filter (fun d0 =>
        !((((obtain_recipient_totals db es (r.recipient_hash ++ "-P")
          true year).map (totalToChildResult db)).map (fun x => x.duns)).contains
            (some d0))) := by
      rw [List.mem_filter]
      refine ⟨hd, ?_⟩
      rw [hfound]
      simp only [Bool.not_eq_true']
      rcases hc : ((obtain_recipient_totals db es (r.recipient_hash ++ "-P")
          true year).map (fun t => t.recipient_unique_id)).contains (some d) with _ | _
      · exact hc
      · exact absurd (List.elem_iff.mp hc) hnotot
    have hcpq : cp ∈ db.recipientProfiles.filter (fun p =>
        ((pp.recipient_affiliations.filter (fun d0 =>
          !((((obtain_recipient_totals db es (r.recipient_hash ++ "-P")
            true year).map (totalToChildResult db)).map (fun x => x.duns)).contains
              (some d0)))).map some).contains p.recipient_unique_id
          && p.recipient_level == "C") := by
      rw [List.mem_filter]
      refine ⟨hcpmem, ?_⟩
      rw [Bool.and_eq_true]
      constructor
      · rw [hcpid]
        exact List.elem_iff.mpr (List.mem_map_of_mem some hdm)
      · simp [hcplev]
    have he0 : missingProfileToChildResult cp ∈
        ((obtain_recipient_totals db es (r.recipient_hash ++ "-P")
          true year).map (totalToChildResult db)) ++
        (db.recipientProfiles.filter (fun p =>
          ((pp.recipient_affiliations.filter (fun d0 =>
            !((((obtain_recipient_totals db es (r.recipient_hash ++ "-P")
              true year).map (totalToChildResult db)).map (fun x => x.duns)).contains
                (some d0)))).map some).contains p.recipient_unique_id
            && p.recipient_level == "C")).map missingProfileToChildResult := by
      exact List.mem_append_right _ (List.mem_map_of_mem _ hcpq)
    have hres : res = attachStates db
        (((obtain_recipient_totals db es (r.recipient_hash ++ "-P")
          true year).map (totalToChildResult db)) ++
        (db.recipientProfiles.filter (fun p =>
          ((pp.recipient_affiliations.filter (fun d0 =>
            !((((obtain_recipient_totals db es (r.recipient_hash ++ "-P")
              true year).map (totalToChildResult db)).map (fun x => x.duns)).contains
                (some d0)))).map some).contains p.recipient_unique_id
            && p.recipient_level == "C")).map missingProfileToChildResult) := by
      injection hok with hok
      exact hok.symm
    rw [hres]
    obtain ⟨e, hemem, hedun, heamt⟩ := attachStates_preserves db _ _ he0
    refine ⟨e, hemem, ?_, ?_⟩
    · rw [hedun]
      simpa [missingProfileToChildResult] using hcpid
    · rw [heamt]
      rfl

/-- Witness for C3: an unknown DUNS raises `DUNS not found`. -/
theorem child_recipients_spec_witness :
    childRecipientsGet dbW3 esW3 "latest" "X" = .error ("DUNS not found: X") :=
  (child_recipients_spec dbW3 esW3 "latest" "X").1 (by decide)

/-- C7: for a level-`P` recipient the overview's `parents` is the single
self-entry (id = the requested id, DUNS/name/UEI = the recipient's own), and
the four top-level parent fields equal that entry's. -/
theorem overview_parent_fields_P (env : Env) (db : Db) (es : Es)
    (year rid : String) (res : OverviewResult)
    (hok : recipientOverViewGet env db es year rid = .ok res)
    (hP : res.recipient_level = "P") :
    res.parents = [⟨some rid, res.duns, res.name, res.uei⟩]
    ∧ res.parent_id = some rid
    ∧ res.parent_duns = res.duns
    ∧ res.parent_name = res.name
    ∧ res.parent_uei = res.uei := by
  unfold recipientOverViewGet at hok
  cases hv : validate_recipient_id env db rid with
  | error e => rw [hv] at hok; exact absurd hok (by simp)
  | ok pr =>
    obtain ⟨rhash, rlevel⟩ := pr
    rw [hv] at hok
    simp only at hok
    by_cases htr : (!(optTruthy (extract_name_duns_from_hash db rhash).2
        || optTruthy (extract_name_duns_from_hash db rhash).1)) = true
    · rw [if_pos htr] at hok
      exact absurd hok (by simp)
    · rw [if_neg htr] at hok
      cases hlk : db.recipientLookups.find?
          (fun r => r.recipient_hash == rhash) with
      | none => rw [hlk] at hok; exact absurd hok (by simp)
      | some lkRow =>
        rw [hlk] at hok
        by_cases hC : (rlevel == "C") = true
        · -- level C cannot satisfy `res.recipient_level = "P"`
          rw [if_pos hC] at hok
          cases hep : extract_parents_from_hash db rhash with
          | none => rw [hep] at hok; exact absurd hok (by simp)
          | some ps =>
            rw [hep] at hok
            simp only at hok
            injection hok with hok
            have : res.recipient_level = rlevel := by rw [← hok]
            rw [hP] at this
            rw [beq_iff_eq] at hC
            rw [hC] at this
            exact absurd this.symm (by decide)
        · rw [if_neg (by simpa using hC)] at hok
          by_cases hPP : (rlevel == "P") = true
          · rw [if_pos hPP] at hok
            simp only [List.head?_cons] at hok
            injection hok with hok
            subst hok
            exact ⟨rfl, rfl, rfl, rfl, rfl⟩
          · rw [if_neg (by simpa using hPP)] at hok
            simp only [List.head?_nil] at hok
            injection hok with hok
            have : res.recipient_level = rlevel := by rw [← hok]
            rw [hP] at this
            rw [beq_iff_eq] at hPP
            exact absurd this.symm hPP

/-- Witness for C7 at the concrete parent-level recipient `H-P`. -/
theorem overview_parent_fields_P_witness :
    overviewResW7.parents =
      [⟨some "H-P", overviewResW7.duns, overviewResW7.name,
        overviewResW7.uei⟩]
    ∧ overviewResW7.parent_id = some "H-P"
    ∧ overviewResW7.parent_duns = overviewResW7.duns
    ∧ overviewResW7.parent_name = overviewResW7.name
    ∧ overviewResW7.parent_uei = overviewResW7.uei :=
  overview_parent_fields_P envW7 dbW7 ⟨fun _ => 0, fun _ => []⟩ "latest" "H-P"
    overviewResW7 rfl rfl

theorem fabpaocMatches_iff (ctx : DisasterCtx) (pk : Nat) (r : FabpaocRow) :
    (fabpaocMatches ctx pk r = true) ↔
      (r.federal_account_id = some pk
        ∧ (∃ c ∈ ctx.defCodes, r.defc = some c)
        ∧ ctx.reportingPeriodMin ≤ r.reporting_period_start
        ∧ (if r.quarter_format_flag then
            r.reporting_fiscal_year ≤ ctx.lastQuarterlyYear
              ∧ r.reporting_fiscal_quarter ≤ ctx.lastQuarterlyQuarter
          else
            r.reporting_fiscal_year ≤ ctx.lastMonthlyYear
              ∧ r.reporting_fiscal_period ≤ ctx.lastMonthlyMonth)
        ∧ ((∃ v, r.obligations_incurred_by_program_object_class_cpe = some v
              ∧ v ≠ 0)
          ∨ (∃ v, r.gross_outlay_amount_by_program_object_class_cpe = some v
              ∧ v ≠ 0))) := by
  unfold fabpaocMatches
  simp only [Bool.and_eq_true, Bool.or_eq_true, beq_iff_eq,
    decide_eq_true_eq]
  constructor
  · rintro ⟨⟨⟨⟨hacc, hdefc⟩, hmin⟩, hwin⟩, hnz⟩
    refine ⟨hacc, ?_, hmin, ?_, ?_⟩
    · cases hc : r.defc with
      | none => rw [hc] at hdefc; exact absurd hdefc (by simp)
      | some c =>
        rw [hc] at hdefc
        exact ⟨c, List.elem_iff.mp hdefc, rfl⟩
    · cases hqf : r.quarter_format_flag with
      | true =>
        rw [if_pos rfl]
        rcases hwin with ⟨⟨_, hy⟩, hq⟩ | ⟨⟨hf, _⟩, _⟩
        · exact ⟨hy, hq⟩
        · rw [hqf] at hf
          simp at hf
      | false =>
        rw [if_neg (by simp)]
        rcases hwin with ⟨⟨hf, _⟩, _⟩ | ⟨⟨_, hy⟩, hm⟩
        · exact absurd (hqf.symm.trans hf) (by decide)
        · exact ⟨hy, hm⟩
    · rcases hnz with ((ho | ho) | ho) | ho
      · left
        cases hov : r.obligations_incurred_by_program_object_class_cpe with
        | none => rw [hov] at ho; exact absurd ho (by simp [optGt])
        | some v =>
          rw [hov] at ho
          simp only [optGt, decide_eq_true_eq] at ho
          exact ⟨v, rfl, by omega⟩
      · left
        cases hov : r.obligations_incurred_by_program_object_class_cpe with
        | none => rw [hov] at ho; exact absurd ho (by simp [optLt])
        | some v =>
          rw [hov] at ho
          simp only [optLt, decide_eq_true_eq] at ho
          exact ⟨v, rfl, by omega⟩
      · right
        cases hov : r.gross_outlay_amount_by_program_object_class_cpe with
        | none => rw [hov] at ho; exact absurd ho (by simp [optGt])
        | some v =>
          rw [hov] at ho
          simp only [optGt, decide_eq_true_eq] at ho
          exact ⟨v, rfl, by omega⟩
      · right
        cases hov : r.gross_outlay_amount_by_program_object_class_cpe with
        | none => rw [hov] at ho; exact absurd ho (by simp [optLt])
        | some v =>
          rw [hov] at ho
          simp only [optLt, decide_eq_true_eq] at ho
          exact ⟨v, rfl, by omega⟩
  · rintro ⟨hacc, hdefc, hmin, hwin, hnz⟩
    refine ⟨⟨⟨⟨hacc, ?_⟩, hmin⟩, ?_⟩, ?_⟩
    · obtain ⟨c, hcm, hcd⟩ := hdefc
      rw [hcd]
      exact List.elem_iff.mpr hcm
    · cases hqf : r.quarter_format_flag with
      | true =>
        rw [if_pos hqf] at hwin
        exact Or.inl ⟨⟨by simp [hqf], hwin.1⟩, hwin.2⟩
      | false =>
        rw [if_neg (by simp [hqf])] at hwin
        exact Or.inr ⟨⟨by simp [hqf], hwin.1⟩, hwin.2⟩
    · rcases hnz with ⟨v, hov, hv⟩ | ⟨v, hov, hv⟩
      · rcases Int.lt_or_lt_of_ne (Ne.symm hv) with h0 | h0
        · exact Or.inl (Or.inl (Or.inl (by simp [optGt, hov, h0])))
        · exact Or.inl (Or.inl (Or.inr (by simp [optLt, hov, h0])))
      · rcases Int.lt_or_lt_of_ne (Ne.symm hv) with h0 | h0
        · exact Or.inl (Or.inr (by simp [optGt, hov, h0]))
        · exact Or.inr (by simp [optLt, hov, h0])

theorem annotate_filter_count_len (l : List Nat) (f : Nat → Bool) :
    (((l.map (fun pk => (pk, f pk))).filter (fun x => x.2)).map
      (fun x => x.1)).length = (l.filter f).length := by
  induction l with
  | nil => rfl
  | cons a t ih =>
    by_cases h : f a = true <;> simp [h, ih]

/-- C1: the disaster federal-account count is the number of
`FederalAccount` rows with at least one financial-activity row satisfying
the five filter conditions. -/
theorem federal_account_count_spec (ctx : DisasterCtx) (ddb : DisasterDb) :
    (federalAccountCountPost ctx ddb).count =
      (ddb.federalAccounts.filter
        (fun pk => decide (countedFederalAccount ctx ddb pk))).length := by
  have hfc : ∀ pk, (ddb.fabpaocRows.any (fabpaocMatches ctx pk)) =
      decide (countedFederalAccount ctx ddb pk) := by
    intro pk
    rw [Bool.eq_iff_iff, List.any_eq_true, decide_eq_true_eq]
    unfold countedFederalAccount
    constructor
    · rintro ⟨r, hr, hm⟩
      exact ⟨r, hr, (fabpaocMatches_iff ctx pk r).mp hm⟩
    · rintro ⟨r, hr, hm⟩
      exact ⟨r, hr, (fabpaocMatches_iff ctx pk r).mpr hm⟩
  unfold federalAccountCountPost
  rw [annotate_filter_count_len]
  simp only [hfc]

/-- C5: the three embedded handlers are pure functions of the request
parameters and the database / search-index responses: two executions on
equal inputs yield equal responses, and no other state enters the
computation. -/
theorem handlers_deterministic (ctx ctx2 : DisasterCtx)
    (ddb ddb2 : DisasterDb) (env env2 : Env) (db db2 : Db) (es es2 : Es)
    (y y2 rid rid2 dn dn2 : String)
    (h1 : ctx = ctx2) (h2 : ddb = ddb2) (h3 : env = env2) (h4 : db = db2)
    (h5 : es = es2) (h6 : y = y2) (h7 : rid = rid2) (h8 : dn = dn2) :
    federalAccountCountPost ctx ddb = federalAccountCountPost ctx2 ddb2
    ∧ recipientOverViewGet env db es y rid =
      recipientOverViewGet env2 db2 es2 y2 rid2
    ∧ childRecipientsGet db es y dn = childRecipientsGet db2 es2 y2 dn2 := by
  subst h1 h2 h3 h4 h5 h6 h7 h8
  exact ⟨rfl, rfl, rfl⟩

/-- Witness for C5 at concrete inputs. -/
theorem handlers_deterministic_witness :
    federalAccountCountPost ⟨["L"], 0, 2022, 2, 2022, 8⟩ ⟨[1], []⟩ =
      federalAccountCountPost ⟨["L"], 0, 2022, 2, 2022, 8⟩ ⟨[1], []⟩
    ∧ recipientOverViewGet ⟨["P"], fun _ => true, fun _ _ _ => []⟩
        ⟨[], [], []⟩ ⟨fun _ => 0, fun _ => []⟩ "latest" "H-P" =
      recipientOverViewGet ⟨["P"], fun _ => true, fun _ _ _ => []⟩
        ⟨[], [], []⟩ ⟨fun _ => 0, fun _ => []⟩ "latest" "H-P"
    ∧ childRecipientsGet ⟨[], [], []⟩ ⟨fun _ => 0, fun _ => []⟩ "latest" "D" =
      childRecipientsGet ⟨[], [], []⟩ ⟨fun _ => 0, fun _ => []⟩ "latest" "D" :=
  handlers_deterministic ⟨["L"], 0, 2022, 2, 2022, 8⟩ ⟨["L"], 0, 2022, 2, 2022, 8⟩
    ⟨[1], []⟩ ⟨[1], []⟩
    ⟨["P"], fun _ => true, fun _ _ _ => []⟩ ⟨["P"], fun _ => true, fun _ _ _ => []⟩
    ⟨[], [], []⟩ ⟨[], [], []⟩
    ⟨fun _ => 0, fun _ => []⟩ ⟨fun _ => 0, fun _ => []⟩
    "latest" "latest" "H-P" "H-P" "D" "D"
    rfl rfl rfl rfl rfl rfl rfl rfl

/-- C6: on the seeded fixture, filtering on awarding toptier
`Bureau of Things` yields HTTP 200, a calculated count of 1, the configured
maximum, and no limit excess (for any positive configured limit). -/
theorem download_count_seeded (maxDownloadLimit : Nat)
    (hL : 1 ≤ maxDownloadLimit) :
    downloadCountPost maxDownloadLimit downloadTestData
        [⟨"awarding", "toptier", "Bureau of Things"⟩] =
      ⟨200, 1, maxDownloadLimit, false⟩ := by
  have hlt : ¬ (maxDownloadLimit < 1) := Nat.not_lt.mpr hL
  simp [downloadCountPost, downloadTestData, transactionMatchesAgencyFilter,
    hlt]

/-- Witness for C6 at the production `MAX_DOWNLOAD_LIMIT` of 500000. -/
theorem download_count_seeded_witness :
    1 ≤ 500000
    ∧ downloadCountPost 500000 downloadTestData
        [⟨"awarding", "toptier", "Bureau of Things"⟩] =
      ⟨200, 1, 500000, false⟩ :=
  ⟨by decide, download_count_seeded 500000 (by decide)⟩

end USAS
